import Mathlib

/-
Shallow embedding of the conversation state and caching layer of the
supportFlow.AI repository:
  src/src/memory/cache.py           (ConversationCache, in-process fallback path)
  src/src/memory/production_memory.py (ProductionConversationMemory)
  src/src/database/connection.py    (DatabaseManager.get_session)
  src/src/models/database_models.py (ConversationDB, MessageDB, KnowledgeBaseUsageDB)

Modelling conventions:
  * Timestamps are Nat seconds; `datetime.now()` becomes an explicit `now`
    argument threaded into every operation.  timedelta(hours=4) = 14400 s.
  * uuid4 primary keys become fresh counters kept in the store
    (nextConvId / nextMsgId / nextKbId).
  * JSON dicts become records.  Python `d.get(k)` is an Option field,
    `d.get(k, v)` is `(... ).getD v`, and `k in d` is `Option.isSome`.
  * The cache is modelled on its deterministic in-process fallback branch
    (use_redis = False); the Redis branch performs the same key/value
    operations (SETEX / LPUSH+LTRIM+EXPIRE / DEL) on the same keys.
    The single memory_cache / memory_expiry dicts, whose keys are the
    disjoint namespaces "conv:{id}" and "messages:{id}", are modelled as
    two association lists with their two expiry lists.
  * DatabaseManager.get_session commits the session body on success and
    rolls the pending store back on an exception, re-raising it; cache
    writes made inside the body are not transactional and survive a
    rollback, exactly as in the Python code.
  * Possible DB exceptions inside a session body are modelled by a fault
    function `Nat → Bool` consulted at each primitive DB step
    (session.add/flush of each row, and the metadata-update step).
  * Each write operation also returns the ordered event trace of its
    primitive DB and cache actions, used to state ordering properties.
-/

abbrev Ctx := List (String × String)

/-- A classification dict, as consumed from metadata['classification']
(the code reads only 'category', 'priority' and
'requires_human_escalation' from it; the `isinstance(classification, dict)`
guard is always true for this structured value). -/
structure Classification where
  category : Option String
  priority : Option String
  requires_human_escalation : Bool
deriving DecidableEq

/-- An entry of metadata['articles_used'] (read with .get and defaults). -/
structure Article where
  id : Option String
  title : Option String
  relevance_score : Option Nat
deriving DecidableEq

/-- The metadata dict passed to add_interaction / _add_message; every key
may be absent. -/
structure Metadata where
  classification : Option Classification
  articles_used : Option (List Article)
  tools_used : Option (List String)
  processing_time_ms : Option Nat
deriving DecidableEq

/-- A row of support.messages (MessageDB). -/
structure Message where
  id : Nat
  conversation_id : Nat
  role : String
  content : String
  classification_result : Option Classification
  tools_used : List String
  processing_time_ms : Option Nat
  created_at : Nat
deriving DecidableEq

/-- A row of support.conversations (ConversationDB).  Column defaults:
status 'open', message_count 0, escalated False, JSON lists default [],
created_at/updated_at func.now() at insert. -/
structure Conversation where
  conversation_id : Nat
  customer_id : String
  status : String
  priority : Option String
  category : Option String
  message_count : Nat
  escalated : Bool
  human_agent_id : Option String
  customer_context : Ctx
  classification_history : List (Nat × Classification)
  articles_referenced : List String
  created_at : Nat
  updated_at : Nat
  resolved_at : Option Nat
deriving DecidableEq

/-- A row of support.knowledge_base_usage (KnowledgeBaseUsageDB). -/
structure KnowledgeBaseUsage where
  id : Nat
  conversation_id : Nat
  article_id : String
  article_title : String
  relevance_score : Nat
  was_helpful : Option Bool
  created_at : Nat
deriving DecidableEq

/-- The durable relational store (the three tables), plus the fresh-key
counters standing in for uuid4 defaults. -/
structure Store where
  conversations : List Conversation
  messages : List Message
  kb_usage : List KnowledgeBaseUsage
  nextConvId : Nat
  nextMsgId : Nat
  nextKbId : Nat
deriving DecidableEq

/-- A cached conversation snapshot dict.  _cache_conversation builds it
without the 'created_at' / 'updated_at' / 'duration_minutes' keys, while
get_conversation_context's database path builds it with them; the three
Option fields record whether the keys are present. -/
structure Snapshot where
  conversation_id : Nat
  customer_id : String
  status : String
  priority : Option String
  category : Option String
  message_count : Nat
  escalated : Bool
  customer_context : Ctx
  classification_history : List (Nat × Classification)
  articles_referenced : List String
  created_at : Option Nat
  updated_at : Option Nat
  duration_minutes : Option Rat
deriving DecidableEq

/-- The 'metadata' sub-dict of a cached message: _add_message stores the
raw interaction metadata (`metadata or {}`), while the
get_conversation_history backfill stores the per-message database fields. -/
inductive MsgMeta
  | interaction (m : Option Metadata)
  | db (cr : Option Classification) (tools : List String) (pt : Option Nat)
deriving DecidableEq

/-- A cached message dict {'role', 'content', 'timestamp', 'metadata'}. -/
structure MsgDict where
  role : String
  content : String
  timestamp : Nat
  meta : MsgMeta
deriving DecidableEq

/-- The in-process cache state: memory_cache and memory_expiry, split by
the two key namespaces "conv:{id}" and "messages:{id}". -/
structure Cache where
  conv : List (Nat × Snapshot)
  convExpiry : List (Nat × Nat)
  msgs : List (Nat × List MsgDict)
  msgsExpiry : List (Nat × Nat)
deriving DecidableEq

/-- Replace-or-append update of an association list (dict assignment). -/
def insertA {β : Type} : List (Nat × β) → Nat → β → List (Nat × β)
  | [], k, v => [(k, v)]
  | (k', v') :: rest, k, v =>
      if k' == k then (k, v) :: rest else (k', v') :: insertA rest k v

/-- Deletion from an association list (Python `del d[k]`, no-op if absent). -/
def eraseA {β : Type} (l : List (Nat × β)) (k : Nat) : List (Nat × β) :=
  l.filter (fun p => !(p.1 == k))

def fourHoursSecs : Nat := 14400

/-- self.conversation_ttl = timedelta(hours=4). -/
def ConversationCache.conversation_ttl : Nat := 14400

/-- ConversationCache._is_expired: a key missing from memory_expiry counts
as expired; otherwise expired iff datetime.now() > stored expiry. -/
def ConversationCache.is_expired_at (now : Nat) (expiry : List (Nat × Nat)) (key : Nat) : Bool :=
  match expiry.lookup key with
  | none => true
  | some t => decide (t < now)

/-- ConversationCache.get_conversation (fallback branch): dict lookup,
None when missing or expired. -/
def ConversationCache.get_conversation (now : Nat) (c : Cache) (cid : Nat) : Option Snapshot :=
  match c.conv.lookup cid with
  | some snap =>
      if ConversationCache.is_expired_at now c.convExpiry cid then none else some snap
  | none => none

/-- ConversationCache.set_conversation: store with TTL = 4 hours. -/
def ConversationCache.set_conversation (now : Nat) (cid : Nat) (snap : Snapshot) (c : Cache) : Cache :=
  { c with
    conv := insertA c.conv cid snap
    convExpiry := insertA c.convExpiry cid (now + ConversationCache.conversation_ttl) }

/-- ConversationCache.get_recent_messages: list slice [:limit] when
present and unexpired, else None. -/
def ConversationCache.get_recent_messages (now : Nat) (c : Cache) (cid : Nat) (limit : Nat) :
    Option (List MsgDict) :=
  match c.msgs.lookup cid with
  | some l =>
      if ConversationCache.is_expired_at now c.msgsExpiry cid then none else some (l.take limit)
  | none => none

/-- ConversationCache.add_message: prepend (insert at index 0), keep the
most recent 50, refresh the TTL.  The expiry of a present-but-expired
window is not consulted: the stale list is extended, as in the source. -/
def ConversationCache.add_message (now : Nat) (cid : Nat) (msg : MsgDict) (c : Cache) : Cache :=
  let cur := (c.msgs.lookup cid).getD []
  { c with
    msgs := insertA c.msgs cid ((msg :: cur).take 50)
    msgsExpiry := insertA c.msgsExpiry cid (now + ConversationCache.conversation_ttl) }

/-- ConversationCache.invalidate_conversation: delete both the snapshot
and the message window together with their expiry entries. -/
def ConversationCache.invalidate_conversation (cid : Nat) (c : Cache) : Cache :=
  { conv := eraseA c.conv cid
    convExpiry := eraseA c.convExpiry cid
    msgs := eraseA c.msgs cid
    msgsExpiry := eraseA c.msgsExpiry cid }

def Cache.empty : Cache := { conv := [], convExpiry := [], msgs := [], msgsExpiry := [] }

def Store.empty : Store :=
  { conversations := [], messages := [], kb_usage := [], nextConvId := 0, nextMsgId := 0, nextKbId := 0 }

/-- A database exception raised at a given primitive step of a session. -/
inductive DbError
  | failure (step : Nat)
deriving DecidableEq

/-- The primitive DB and cache actions of a write operation, in execution
order. -/
inductive Event
  | dbInsertConversation (cid : Nat)
  | dbInsertMessage (cid : Nat) (role : String)
  | dbUpdateConversation (cid : Nat)
  | dbInsertKbUsage (cid : Nat)
  | cacheAddMessage (cid : Nat)
  | cacheSetConversation (cid : Nat)
  | cacheInvalidate (cid : Nat)
  | dbCommit
  | dbRollback
deriving DecidableEq

def Event.isCommit : Event → Bool
  | .dbCommit => true
  | _ => false

/-- Cache populations: snapshot stores and message-window pushes
(invalidations delete, they do not populate). -/
def Event.isCachePopulation : Event → Bool
  | .cacheAddMessage _ => true
  | .cacheSetConversation _ => true
  | _ => false

/-- Combined mutable state: the durable store plus the (module-level)
cache instance. -/
structure MemState where
  store : Store
  cache : Cache
deriving DecidableEq

/-- A running session body: pending store, live cache, trace so far.  An
exception aborts with the cache and trace as already mutated (cache
writes are not transactional). -/
abbrev TxResult (α : Type) :=
  Except (DbError × Cache × List Event) (α × Store × Cache × List Event)

/-- DatabaseManager.get_session: run the body; session.commit() on normal
exit, session.rollback() (discard the pending store) and re-raise on an
exception. -/
def DatabaseManager.get_session {α : Type} (st : MemState)
    (body : Store → Cache → List Event → TxResult α) :
    Except DbError α × MemState × List Event :=
  match body st.store st.cache [] with
  | .ok (a, s', c', tr) => (.ok a, { store := s', cache := c' }, tr ++ [Event.dbCommit])
  | .error (e, c', tr) => (.error e, { store := st.store, cache := c' }, tr ++ [Event.dbRollback])

/-- The MessageDB row built by _add_message (uuid4 id modelled by the
nextMsgId counter; created_at default func.now()). -/
def ProductionConversationMemory.add_message_row (now : Nat) (cid : Nat)
    (role content : String) (metadata : Option Metadata) (s : Store) : Message × Store :=
  let m : Message :=
    { id := s.nextMsgId
      conversation_id := cid
      role := role
      content := content
      classification_result := metadata.bind (fun md => md.classification)
      tools_used := (metadata.bind (fun md => md.tools_used)).getD []
      processing_time_ms := metadata.bind (fun md => md.processing_time_ms)
      created_at := now }
  (m, { s with messages := s.messages ++ [m], nextMsgId := s.nextMsgId + 1 })

/-- ProductionConversationMemory._add_message: session.add + flush of the
row (the step at which a DB exception may fire), then the best-effort
cache push of {'role', 'content', 'timestamp', 'metadata': metadata or {}}. -/
def ProductionConversationMemory._add_message (failNow : Bool) (step : Nat) (now : Nat)
    (cid : Nat) (role content : String) (metadata : Option Metadata)
    (s : Store) (c : Cache) (tr : List Event) : TxResult Message :=
  if failNow then
    .error (DbError.failure step, c, tr)
  else
    let ms := ProductionConversationMemory.add_message_row now cid role content metadata s
    let c' := ConversationCache.add_message now cid
      { role := role, content := content, timestamp := ms.1.created_at
        meta := MsgMeta.interaction metadata } c
    .ok (ms.1, ms.2, c', tr ++ [Event.dbInsertMessage cid role, Event.cacheAddMessage cid])

/-- ProductionConversationMemory._cache_conversation: the snapshot dict it
builds carries no 'created_at' / 'updated_at' / 'duration_minutes' keys. -/
def ProductionConversationMemory._cache_conversation (now : Nat) (cv : Conversation)
    (c : Cache) : Cache × List Event :=
  let snap : Snapshot :=
    { conversation_id := cv.conversation_id
      customer_id := cv.customer_id
      status := cv.status
      priority := cv.priority
      category := cv.category
      message_count := cv.message_count
      escalated := cv.escalated
      customer_context := cv.customer_context
      classification_history := cv.classification_history
      articles_referenced := cv.articles_referenced
      created_at := none
      updated_at := none
      duration_minutes := none }
  (ConversationCache.set_conversation now cv.conversation_id snap c,
   [Event.cacheSetConversation cv.conversation_id])

/-- The continuity-resolver filter of start_or_get_conversation:
customer match, status in {'open','in_progress'}, updated_at strictly
newer than now - 4 hours. -/
def qualifiesB (now : Nat) (customer : String) (cv : Conversation) : Bool :=
  cv.customer_id == customer &&
    (cv.status == "open" || cv.status == "in_progress") &&
    decide (now < cv.updated_at + fourHoursSecs)

/-- .order_by(desc(updated_at)).first(): the row with the maximal
updated_at among the filtered rows (ties resolved to the earlier row). -/
def pickLatest (acc : Option Conversation) : List Conversation → Option Conversation
  | [] => acc
  | cv :: rest =>
      match acc with
      | none => pickLatest (some cv) rest
      | some b => pickLatest (some (if b.updated_at < cv.updated_at then cv else b)) rest

/-- The recent-active-conversation query of start_or_get_conversation. -/
def recentConversation (now : Nat) (customer : String) (s : Store) : Option Conversation :=
  pickLatest none (s.conversations.filter (fun cv => qualifiesB now customer cv))

/-- The ConversationDB row built by the creation path (explicit fields
customer_id, customer_context or {}, status 'open', message_count 1;
column defaults for the rest). -/
def newConversationRow (now : Nat) (customer : String) (ctx : Option Ctx) (cid : Nat) :
    Conversation :=
  { conversation_id := cid
    customer_id := customer
    status := "open"
    priority := none
    category := none
    message_count := 1
    escalated := false
    human_agent_id := none
    customer_context := ctx.getD []
    classification_history := []
    articles_referenced := []
    created_at := now
    updated_at := now
    resolved_at := none }

/-- ProductionConversationMemory.start_or_get_conversation: continue the
most recent open/in_progress conversation updated within 4 hours (adding
the user message but touching no conversation fields), or create a new
conversation, add the user message, and cache the snapshot. -/
def ProductionConversationMemory.start_or_get_conversation (fault : Nat → Bool) (now : Nat)
    (customer_id initial_message : String) (customer_context : Option Ctx)
    (st : MemState) : Except DbError Nat × MemState × List Event :=
  DatabaseManager.get_session st (fun s c tr =>
    match recentConversation now customer_id s with
    | some rc =>
        match ProductionConversationMemory._add_message (fault 0) 0 now
            rc.conversation_id "user" initial_message none s c tr with
        | .error e => .error e
        | .ok (_, s', c', tr') => .ok (rc.conversation_id, s', c', tr')
    | none =>
        if fault 0 then .error (DbError.failure 0, c, tr)
        else
          let cv := newConversationRow now customer_id customer_context s.nextConvId
          let s1 := { s with conversations := s.conversations ++ [cv], nextConvId := s.nextConvId + 1 }
          let tr1 := tr ++ [Event.dbInsertConversation cv.conversation_id]
          match ProductionConversationMemory._add_message (fault 1) 1 now
              cv.conversation_id "user" initial_message none s1 c tr1 with
          | .error e => .error e
          | .ok (_, s2, c2, tr2) =>
              let ce := ProductionConversationMemory._cache_conversation now cv c2
              .ok (cv.conversation_id, s2, ce.1, tr2 ++ ce.2))

/-- session.query(ConversationDB).filter_by(conversation_id=cid).first(). -/
def findConv (cid : Nat) (s : Store) : Option Conversation :=
  s.conversations.find? (fun cv => cv.conversation_id == cid)

/-- The classification block of add_interaction: when metadata carries a
classification, append it to classification_history and overwrite the
denormalized category / priority / escalated fields. -/
def applyClassificationUpdate (now : Nat) (metadata : Option Metadata) (cv : Conversation) :
    Conversation :=
  match metadata.bind (fun md => md.classification) with
  | none => cv
  | some cl =>
      { cv with
        classification_history := cv.classification_history ++ [(now, cl)]
        category := cl.category
        priority := cl.priority
        escalated := cl.requires_human_escalation }

/-- ProductionConversationMemory._track_kb_usage: one usage row per
article, with .get defaults 'unknown' / '' / 0. -/
def ProductionConversationMemory._track_kb_usage (now : Nat) (cid : Nat)
    (articles : List Article) (s : Store) : Store × List Event :=
  articles.foldl
    (fun acc a =>
      let usage : KnowledgeBaseUsage :=
        { id := acc.1.nextKbId
          conversation_id := cid
          article_id := a.id.getD "unknown"
          article_title := a.title.getD ""
          relevance_score := a.relevance_score.getD 0
          was_helpful := none
          created_at := now }
      ({ acc.1 with kb_usage := acc.1.kb_usage ++ [usage], nextKbId := acc.1.nextKbId + 1 },
       acc.2 ++ [Event.dbInsertKbUsage cid]))
    (s, [])

/-- ProductionConversationMemory.add_interaction: insert the user message,
insert the assistant message, then (if the conversation row exists)
message_count += 2, updated_at = now, the classification block, the
knowledge-base usage block, and _cache_conversation — all in one session. -/
def ProductionConversationMemory.add_interaction (fault : Nat → Bool) (now : Nat) (cid : Nat)
    (user_message agent_response : String) (metadata : Option Metadata)
    (st : MemState) : Except DbError Unit × MemState × List Event :=
  DatabaseManager.get_session st (fun s c tr =>
    match ProductionConversationMemory._add_message (fault 0) 0 now cid "user"
        user_message none s c tr with
    | .error e => .error e
    | .ok (_, s1, c1, tr1) =>
        match ProductionConversationMemory._add_message (fault 1) 1 now cid "assistant"
            agent_response metadata s1 c1 tr1 with
        | .error e => .error e
        | .ok (_, s2, c2, tr2) =>
            if fault 2 then .error (DbError.failure 2, c2, tr2)
            else
              match findConv cid s2 with
              | none => .ok ((), s2, c2, tr2)
              | some cv =>
                  let cv2 := applyClassificationUpdate now metadata
                    { cv with message_count := cv.message_count + 2, updated_at := now }
                  let s3 := { s2 with conversations :=
                    s2.conversations.map (fun x => if x.conversation_id == cid then cv2 else x) }
                  let skb :=
                    match metadata.bind (fun md => md.articles_used) with
                    | none => (s3, [])
                    | some arts => ProductionConversationMemory._track_kb_usage now cid arts s3
                  let ce := ProductionConversationMemory._cache_conversation now cv2 c2
                  .ok ((), skb.1, ce.1,
                       tr2 ++ [Event.dbUpdateConversation cid] ++ skb.2 ++ ce.2))

/-- The per-message history dict built by get_conversation_history's
database path. -/
def msgToDict (m : Message) : MsgDict :=
  { role := m.role
    content := m.content
    timestamp := m.created_at
    meta := MsgMeta.db m.classification_result m.tools_used m.processing_time_ms }

/-- Stable insertion of a message into a list already sorted by
created_at ascending (equal timestamps keep arrival order). -/
def insertByTime (m : Message) : List Message → List Message
  | [] => [m]
  | x :: xs => if x.created_at ≤ m.created_at then x :: insertByTime m xs else m :: x :: xs

/-- .order_by(MessageDB.created_at): stable ascending sort. -/
def sortByCreatedAt (l : List Message) : List Message :=
  l.foldl (fun acc m => insertByTime m acc) []

/-- The database fallback of get_conversation_history: read ascending by
created_at capped at limit, then backfill the cache window message by
message (only when the history is nonempty). -/
def ProductionConversationMemory.get_conversation_history_db (now : Nat) (cid : Nat)
    (limit : Nat) (st : MemState) : List MsgDict × MemState :=
  let history :=
    ((sortByCreatedAt (st.store.messages.filter (fun m => m.conversation_id == cid))).take
        limit).map msgToDict
  let c' :=
    if history.isEmpty then st.cache
    else history.foldl (fun c msg => ConversationCache.add_message now cid msg c) st.cache
  (history, { st with cache := c' })

/-- ProductionConversationMemory.get_conversation_history: cache first
(`if cached_messages:` — a None or empty cached list falls through to
the database path). -/
def ProductionConversationMemory.get_conversation_history (now : Nat) (cid : Nat)
    (limit : Nat) (st : MemState) : List MsgDict × MemState :=
  match ConversationCache.get_recent_messages now st.cache cid limit with
  | some cached =>
      if cached.isEmpty then
        ProductionConversationMemory.get_conversation_history_db now cid limit st
      else (cached, st)
  | none => ProductionConversationMemory.get_conversation_history_db now cid limit st

/-- The context dict built by get_conversation_context's database path:
full metadata plus created_at, updated_at and duration_minutes =
(updated_at - created_at).total_seconds() / 60. -/
def contextSnapshot (cv : Conversation) : Snapshot :=
  { conversation_id := cv.conversation_id
    customer_id := cv.customer_id
    status := cv.status
    priority := cv.priority
    category := cv.category
    message_count := cv.message_count
    escalated := cv.escalated
    customer_context := cv.customer_context
    classification_history := cv.classification_history
    articles_referenced := cv.articles_referenced
    created_at := some cv.created_at
    updated_at := some cv.updated_at
    duration_minutes := some (((cv.updated_at : Rat) - (cv.created_at : Rat)) / 60) }

/-- ProductionConversationMemory.get_conversation_context: cache first
(`if cached_context:` — cached snapshot dicts are never empty, hence
truthy); on miss read the row, build the full context, cache it, return
it; None when the row does not exist. -/
def ProductionConversationMemory.get_conversation_context (now : Nat) (cid : Nat)
    (st : MemState) : Option Snapshot × MemState :=
  match ConversationCache.get_conversation now st.cache cid with
  | some ctx => (some ctx, st)
  | none =>
      match findConv cid st.store with
      | none => (none, st)
      | some cv =>
          let ctx := contextSnapshot cv
          (some ctx,
           { st with cache := ConversationCache.set_conversation now cid ctx st.cache })

/-- The row mutation of update_conversation_status: status and updated_at
always; resolved_at when resolving; escalated flag and human agent when
escalating. -/
def applyStatusUpdate (now : Nat) (status : String) (agent : Option String)
    (cv : Conversation) : Conversation :=
  let cv1 := { cv with status := status, updated_at := now }
  let cv2 := if status == "resolved" then { cv1 with resolved_at := some now } else cv1
  if status == "escalated" then { cv2 with escalated := true, human_agent_id := agent } else cv2

/-- ProductionConversationMemory.update_conversation_status: mutate the
row (when it exists) and invalidate the cache entry, in one session;
a missing conversation id is silently skipped (`if conversation:`). -/
def ProductionConversationMemory.update_conversation_status (now : Nat) (cid : Nat)
    (status : String) (human_agent_id : Option String) (st : MemState) :
    Except DbError Unit × MemState × List Event :=
  DatabaseManager.get_session st (fun s c tr =>
    match findConv cid s with
    | none => .ok ((), s, c, tr)
    | some _ =>
        let s' := { s with conversations :=
          s.conversations.map (fun x =>
            if x.conversation_id == cid then applyStatusUpdate now status human_agent_id x
            else x) }
        let c' := ConversationCache.invalidate_conversation cid c
        .ok ((), s', c', tr ++ [Event.dbUpdateConversation cid, Event.cacheInvalidate cid]))

def MemState.empty : MemState := { store := Store.empty, cache := Cache.empty }

/-- A fault function under which no DB step raises (the normal run). -/
def noFault : Nat → Bool := fun _ => false

/-- The claim that cache populations happen only after the durable commit:
no cache population event strictly before the first commit of the trace. -/
def cachePopulationOnlyAfterCommit (tr : List Event) : Bool :=
  (tr.takeWhile (fun e => !(e.isCommit))).all (fun e => !(e.isCachePopulation))

/-- Iterated ConversationCache.add_message calls: each entry is
(now, conversation id, message). -/
def applyAddMessages (calls : List (Nat × Nat × MsgDict)) (c : Cache) : Cache :=
  calls.foldl (fun c p => ConversationCache.add_message p.1 p.2.1 p.2.2 c) c

/-- Every cached message window holds at most 50 entries. -/
def windowsBounded (c : Cache) : Prop :=
  ∀ k l, c.msgs.lookup k = some l → l.length ≤ 50

/- Concrete executions used by the counterexample and witness theorems. -/

/-- Customer c1 opens a conversation at t = 0 with "hi": conversation 0 is
created with message_count 1 and one user message row. -/
def scenario1 : MemState :=
  (ProductionConversationMemory.start_or_get_conversation noFault 0 "c1" "hi" none
    MemState.empty).2.1

/-- The same customer calls start_or_get_conversation again at t = 60,
inside the 4-hour continuity window: the continuation path runs. -/
def scenario2 : MemState :=
  (ProductionConversationMemory.start_or_get_conversation noFault 60 "c1" "again" none
    scenario1).2.1

/-- A full interaction on conversation 0 whose user message repeats the
initial message already persisted by start_or_get_conversation. -/
def scenario6 : MemState :=
  (ProductionConversationMemory.add_interaction noFault 120 0 "hi" "resp" none scenario1).2.1

/-- A fault that fires at the conversation-metadata step of
add_interaction: after both message inserts, before the commit. -/
def faultAtStep2 : Nat → Bool := fun n => n == 2

/-- add_interaction on conversation 0 aborted by a DB failure after the
two message inserts and before the commit. -/
def rolledBackRun : Except DbError Unit × MemState × List Event :=
  ProductionConversationMemory.add_interaction faultAtStep2 120 0 "follow" "resp" none scenario1

/-- The conversation 0 row as persisted by scenario1. -/
def scenario1Conv : Conversation := newConversationRow 0 "c1" none 0

/-- A stored conversation created at t = 0 and last updated at t = 600,
with an empty cache (used to exercise the database path of
get_conversation_context). -/
def c7Conv : Conversation :=
  { conversation_id := 3
    customer_id := "c7"
    status := "in_progress"
    priority := some "high"
    category := some "billing"
    message_count := 4
    escalated := false
    human_agent_id := none
    customer_context := []
    classification_history := []
    articles_referenced := []
    created_at := 0
    updated_at := 600
    resolved_at := none }

def c7St : MemState :=
  { store := { Store.empty with conversations := [c7Conv], nextConvId := 4 }
    cache := Cache.empty }

def mda : MsgDict := { role := "user", content := "m0", timestamp := 1, meta := MsgMeta.interaction none }
def mdb : MsgDict := { role := "assistant", content := "m1", timestamp := 2, meta := MsgMeta.interaction none }
def mdc : MsgDict := { role := "user", content := "m2", timestamp := 3, meta := MsgMeta.interaction none }

/-- Three cache pushes onto the window of conversation 0. -/
def c8Calls : List (Nat × Nat × MsgDict) := [(0, 0, mda), (1, 0, mdb), (2, 0, mdc)]

/-- Two persisted messages of conversation 7, an empty cache: the setting
of the cold-then-warm get_conversation_history counterexample. -/
def c10Msg1 : Message :=
  { id := 0, conversation_id := 7, role := "user", content := "first"
    classification_result := none, tools_used := [], processing_time_ms := none, created_at := 10 }

def c10Msg2 : Message :=
  { id := 1, conversation_id := 7, role := "assistant", content := "second"
    classification_result := none, tools_used := [], processing_time_ms := none, created_at := 20 }

def c10St : MemState :=
  { store := { Store.empty with messages := [c10Msg1, c10Msg2], nextMsgId := 2 }
    cache := Cache.empty }

/-- The cold call: cache miss, database read, cache backfill. -/
def c10Cold : List MsgDict × MemState :=
  ProductionConversationMemory.get_conversation_history 30 7 20 c10St

/-- The warm call immediately after, served from the backfilled window. -/
def c10Warm : List MsgDict × MemState :=
  ProductionConversationMemory.get_conversation_history 30 7 20 c10Cold.2

/-- The user Message row appended by the creation path of
start_or_get_conversation (metadata None throughout). -/
def initialUserMessage (now : Nat) (initial : String) (s : Store) : Message :=
  { id := s.nextMsgId
    conversation_id := s.nextConvId
    role := "user"
    content := initial
    classification_result := none
    tools_used := []
    processing_time_ms := none
    created_at := now }

/- Association-list lemmas. -/

theorem lookup_insertA_self {β : Type} (l : List (Nat × β)) (k : Nat) (v : β) :
    (insertA l k v).lookup k = some v := by
  induction l with
  | nil => simp [insertA, List.lookup]
  | cons p rest ih =>
      obtain ⟨k', v'⟩ := p
      by_cases h : k' = k
      · simp [insertA, h, List.lookup]
      · have hbeq : (k == k') = false := by simp [Ne.symm h]
        simp [insertA, h, List.lookup, hbeq, ih]

theorem lookup_insertA_ne {β : Type} (l : List (Nat × β)) (k k' : Nat) (v : β)
    (h : k' ≠ k) : (insertA l k v).lookup k' = l.lookup k' := by
  have hbeq : (k' == k) = false := by simp [h]
  induction l with
  | nil => simp [insertA, List.lookup, hbeq]
  | cons p rest ih =>
      obtain ⟨ka, va⟩ := p
      by_cases hk : ka = k
      · simp [insertA, hk, List.lookup, hbeq]
      · by_cases hka : k' = ka
        · simp [insertA, hk, List.lookup, hka]
        · have hbka : (k' == ka) = false := by simp [hka]
          simp [insertA, hk, List.lookup, hbka, ih]

theorem lookup_eraseA_self {β : Type} (l : List (Nat × β)) (k : Nat) :
    (eraseA l k).lookup k = none := by
  induction l with
  | nil => simp [eraseA, List.lookup]
  | cons p rest ih =>
      obtain ⟨ka, va⟩ := p
      by_cases hk : ka = k
      · have hb : (!(ka == k)) = false := by simp [hk]
        simpa [eraseA, List.filter_cons, hb] using ih
      · have hb : (!(ka == k)) = true := by simp [hk]
        have hbeq : (k == ka) = false := by simp [Ne.symm hk]
        simp only [eraseA, List.filter_cons, hb, if_true] at ih ⊢
        simpa [List.lookup, hbeq] using ih

/- The order_by(desc(updated_at)).first() selection. -/

theorem pickLatest_some_ne_none (l : List Conversation) (b : Conversation) :
    pickLatest (some b) l ≠ none := by
  induction l generalizing b with
  | nil => simp [pickLatest]
  | cons cv rest ih => simpa [pickLatest] using ih _

theorem pickLatest_spec (l : List Conversation) (b r : Conversation)
    (h : pickLatest (some b) l = some r) :
    (r = b ∨ r ∈ l) ∧ b.updated_at ≤ r.updated_at ∧
      ∀ cv ∈ l, cv.updated_at ≤ r.updated_at := by
  induction l generalizing b with
  | nil =>
      simp [pickLatest] at h
      subst h
      exact ⟨Or.inl rfl, le_refl _, by simp⟩
  | cons cv rest ih =>
      simp only [pickLatest] at h
      rcases ih _ h with ⟨hmem, hle, hall⟩
      by_cases hlt : b.updated_at < cv.updated_at
      · rw [if_pos hlt] at hmem hle
        refine ⟨?_, le_trans (le_of_lt hlt) hle, ?_⟩
        · rcases hmem with rfl | hm
          · exact Or.inr (List.mem_cons_self _ _)
          · exact Or.inr (List.mem_cons_of_mem _ hm)
        · intro x hx
          rcases List.mem_cons.mp hx with rfl | hx'
          · exact hle
          · exact hall x hx'
      · rw [if_neg hlt] at hmem hle
        refine ⟨?_, hle, ?_⟩
        · rcases hmem with rfl | hm
          · exact Or.inl rfl
          · exact Or.inr (List.mem_cons_of_mem _ hm)
        · intro x hx
          rcases List.mem_cons.mp hx with rfl | hx'
          · exact le_trans (le_of_not_lt hlt) hle
          · exact hall x hx'

theorem recentConversation_none_spec (now : Nat) (customer : String) (s : Store)
    (h : recentConversation now customer s = none) :
    ∀ cv ∈ s.conversations, qualifiesB now customer cv = false := by
  unfold recentConversation at h
  cases hf : s.conversations.filter (fun cv => qualifiesB now customer cv) with
  | nil =>
      intro cv hcv
      have := List.filter_eq_nil_iff.mp hf cv hcv
      simpa using this
  | cons a rest =>
      rw [hf] at h
      simp only [pickLatest] at h
      exact absurd h (pickLatest_some_ne_none _ _)

theorem recentConversation_some_spec (now : Nat) (customer : String) (s : Store)
    (rc : Conversation) (h : recentConversation now customer s = some rc) :
    rc ∈ s.conversations ∧ qualifiesB now customer rc = true ∧
      ∀ cv ∈ s.conversations, qualifiesB now customer cv = true →
        cv.updated_at ≤ rc.updated_at := by
  unfold recentConversation at h
  cases hf : s.conversations.filter (fun cv => qualifiesB now customer cv) with
  | nil => rw [hf] at h; simp [pickLatest] at h
  | cons a rest =>
      rw [hf] at h
      simp only [pickLatest] at h
      rcases pickLatest_spec rest a rc h with ⟨hmem, hle, hall⟩
      have hrcFilter : rc ∈ s.conversations.filter (fun cv => qualifiesB now customer cv) := by
        rw [hf]
        rcases hmem with rfl | hm
        · exact List.mem_cons_self _ _
        · exact List.mem_cons_of_mem _ hm
      rcases List.mem_filter.mp hrcFilter with ⟨hrcMem, hrcQ⟩
      refine ⟨hrcMem, hrcQ, ?_⟩
      intro cv hcv hq
      have hcvFilter : cv ∈ s.conversations.filter (fun cv => qualifiesB now customer cv) :=
        List.mem_filter.mpr ⟨hcv, hq⟩
      rw [hf] at hcvFilter
      rcases List.mem_cons.mp hcvFilter with rfl | hcv'
      · exact hle
      · exact hall cv hcv'

/- Status update and find? lemmas. -/

theorem applyStatusUpdate_conversation_id (now : Nat) (status : String) (agent : Option String)
    (cv : Conversation) :
    (applyStatusUpdate now status agent cv).conversation_id = cv.conversation_id := by
  unfold applyStatusUpdate
  split <;> split <;> rfl

theorem applyStatusUpdate_status (now : Nat) (status : String) (agent : Option String)
    (cv : Conversation) : (applyStatusUpdate now status agent cv).status = status := by
  unfold applyStatusUpdate
  split <;> split <;> rfl

theorem find?_map_update (cid : Nat) (g : Conversation → Conversation)
    (hg : ∀ y, (g y).conversation_id = y.conversation_id)
    (l : List Conversation) (cv : Conversation)
    (h : l.find? (fun x => x.conversation_id == cid) = some cv) :
    (l.map (fun x => if x.conversation_id == cid then g x else x)).find?
        (fun x => x.conversation_id == cid) = some (g cv) := by
  induction l with
  | nil => simp at h
  | cons a rest ih =>
      by_cases ha : a.conversation_id = cid
      · have hpa : (a.conversation_id == cid) = true := by simp [ha]
        simp only [List.find?_cons, hpa, Option.some.injEq] at h
        subst h
        have hga : ((g a).conversation_id == cid) = true := by simp [hg, ha]
        simp only [List.map_cons, hpa, if_true, List.find?_cons, hga]
      · have hpa : (a.conversation_id == cid) = false := by simp [ha]
        simp only [List.find?_cons, hpa] at h
        simp only [List.map_cons, hpa, Bool.false_eq_true, if_false, List.find?_cons]
        exact ih h

/- Cache-window lemmas. -/

theorem add_message_lookup_self (now cid : Nat) (m : MsgDict) (c : Cache) :
    (ConversationCache.add_message now cid m c).msgs.lookup cid
      = some ((m :: (c.msgs.lookup cid).getD []).take 50) := by
  unfold ConversationCache.add_message
  exact lookup_insertA_self _ _ _

theorem add_message_expiry_self (now cid : Nat) (m : MsgDict) (c : Cache) :
    (ConversationCache.add_message now cid m c).msgsExpiry.lookup cid
      = some (now + ConversationCache.conversation_ttl) := by
  unfold ConversationCache.add_message
  exact lookup_insertA_self _ _ _

theorem windowsBounded_empty : windowsBounded Cache.empty := by
  intro k l h
  simp [Cache.empty, List.lookup] at h

theorem windowsBounded_add (now cid : Nat) (m : MsgDict) (c : Cache)
    (hc : windowsBounded c) : windowsBounded (ConversationCache.add_message now cid m c) := by
  intro k l hk
  by_cases hkc : k = cid
  · subst hkc
    rw [add_message_lookup_self] at hk
    cases hk
    exact List.length_take_le _ _
  · unfold ConversationCache.add_message at hk
    rw [lookup_insertA_ne _ _ _ _ hkc] at hk
    exact hc k l hk

theorem windowsBounded_applyAddMessages (calls : List (Nat × Nat × MsgDict)) (c : Cache)
    (hc : windowsBounded c) : windowsBounded (applyAddMessages calls c) := by
  induction calls generalizing c with
  | nil => simpa [applyAddMessages] using hc
  | cons p rest ih =>
      simp only [applyAddMessages, List.foldl_cons] at *
      exact ih _ (windowsBounded_add _ _ _ _ hc)

/- Take/append lemma for the sliding window. -/

theorem take_append_take (xs ys : List MsgDict) (n : Nat) :
    (xs ++ ys.take n).take n = (xs ++ ys).take n := by
  rw [List.take_append_eq_append_take, List.take_append_eq_append_take, List.take_take]
  congr 2
  omega

/-- The cache backfill of get_conversation_history: folding add_message
over a nonempty list prepends its reverse onto the existing window,
truncated at 50, and refreshes the TTL to now + 4 hours. -/
theorem foldAdd_lookup (now cid : Nat) (l : List MsgDict) (c : Cache) (hl : l ≠ []) :
    ((l.foldl (fun c msg => ConversationCache.add_message now cid msg c) c).msgs.lookup cid
        = some ((l.reverse ++ (c.msgs.lookup cid).getD []).take 50)) ∧
    ((l.foldl (fun c msg => ConversationCache.add_message now cid msg c) c).msgsExpiry.lookup cid
        = some (now + ConversationCache.conversation_ttl)) := by
  induction l generalizing c with
  | nil => exact absurd rfl hl
  | cons m rest ih =>
      rcases eq_or_ne rest [] with hrest | hrest
      · subst hrest
        simp only [List.foldl_cons, List.foldl_nil]
        refine ⟨?_, add_message_expiry_self now cid m c⟩
        rw [add_message_lookup_self]
        simp
      · simp only [List.foldl_cons]
        rcases ih (ConversationCache.add_message now cid m c) hrest with ⟨h1, h2⟩
        refine ⟨?_, h2⟩
        rw [h1, add_message_lookup_self]
        simp only [Option.getD_some]
        rw [take_append_take, List.reverse_cons, List.append_assoc, List.singleton_append]

/-- C1: the claim states that after any write of the Memory Façade,
message_count equals the number of persisted Message rows of the
conversation.  The continuation path of start_or_get_conversation falsifies
it: customer c1 opens conversation 0 at t = 0 (count 1, one row) and calls
start_or_get_conversation again at t = 60 inside the 4-hour window; the
code inserts a second user Message row but never increments message_count,
leaving message_count = 1 against 2 persisted rows. -/
theorem C1_message_count_diverges :
    (findConv 0 scenario2.store).map (fun cv => cv.message_count) = some 1 ∧
    (scenario2.store.messages.filter (fun m => m.conversation_id == 0)).length = 2 := by
  decide

/-- C6: the claim states that add_interaction persists the user message
only if it is not already persisted.  The code inserts it unconditionally:
after start_or_get_conversation records "hi" for conversation 0,
add_interaction(0, "hi", "resp") leaves two identical user rows "hi" (and
three rows in total, with message_count = 3 = 1 + 2, matching the
unconditional increment by the two rows actually added). -/
theorem C6_user_message_duplicated :
    (scenario6.store.messages.filter
        (fun m => m.conversation_id == 0 && m.role == "user" && m.content == "hi")).length = 2 ∧
    (findConv 0 scenario6.store).map (fun cv => cv.message_count) = some 3 ∧
    (scenario6.store.messages.filter (fun m => m.conversation_id == 0)).length = 3 := by
  decide

/-- C2 counterexample: the claim states that the cache is populated only
after the durable commit, so a rolled-back transaction leaves the cache
without the aborted data.  In a successful add_interaction the trace has
cache populations strictly before the commit, and an add_interaction
aborted at the metadata step (after the two inserts, before commit) rolls
the store back yet leaves the two aborted messages in the cache window of
conversation 0 (window length 3 against a store holding one row). -/
theorem C2_counterexample :
    cachePopulationOnlyAfterCommit
        (ProductionConversationMemory.add_interaction noFault 120 0 "follow" "resp" none
          scenario1).2.2 = false ∧
    rolledBackRun.2.1.store = scenario1.store ∧
    ((rolledBackRun.2.1.cache.msgs.lookup 0).getD []).length = 3 ∧
    (scenario1.store.messages.filter (fun m => m.conversation_id == 0)).length = 1 := by
  decide

/-- C7 counterexample: the claim states that every non-absent
get_conversation_context result carries duration_minutes (with created_at
and updated_at).  A snapshot cached by the write path (_cache_conversation,
here via the creation path of start_or_get_conversation) has none of the
three keys, and a subsequent get_conversation_context serves exactly that
snapshot from the cache. -/
theorem C7_counterexample :
    ((ProductionConversationMemory.get_conversation_context 30 0 scenario1).1.map
        (fun s => s.duration_minutes)) = some none ∧
    ((ProductionConversationMemory.get_conversation_context 30 0 scenario1).1.map
        (fun s => s.created_at)) = some none := by
  decide

/-- C9 counterexample: the claim states that update_conversation_status on
a missing conversation id signals a typed not-found condition rather than
silently doing nothing.  On the empty store the call returns plain success
with the state untouched and no signal of any kind: a silent no-op. -/
theorem C9_counterexample :
    (ProductionConversationMemory.update_conversation_status 100 5 "resolved" none
        MemState.empty).1 = Except.ok () ∧
    (ProductionConversationMemory.update_conversation_status 100 5 "resolved" none
        MemState.empty).2.1 = MemState.empty := by
  exact ⟨rfl, by decide⟩

/-- C10 counterexample: the claim states that two consecutive
get_conversation_history calls return equal lists in the same order.  With
two persisted messages and a cold cache the first call returns them
ascending by creation time while the second call, served from the window
backfilled by the first (which prepends each message), returns them
reversed. -/
theorem C10_counterexample :
    c10Cold.1 ≠ c10Warm.1 ∧ c10Warm.1 = c10Cold.1.reverse := by
  decide

/-- C3: add_interaction is atomic with respect to the Durable Store: a DB
exception at any primitive step before the commit (the user-message
insert, the assistant-message insert, or the conversation metadata
update) makes the whole call raise and roll the transaction back, so the
resulting store — its Message rows and its conversation rows alike — is
exactly the store before the call. -/
theorem C3_add_interaction_atomic (k : Nat) (hk : k ≤ 2) (now cid : Nat)
    (um ar : String) (md : Option Metadata) (st : MemState) :
    (ProductionConversationMemory.add_interaction (fun n => n == k) now cid um ar md st).2.1.store
        = st.store ∧
    ∃ e, (ProductionConversationMemory.add_interaction (fun n => n == k) now cid um ar md st).1
        = Except.error e := by
  have hk3 : k = 0 ∨ k = 1 ∨ k = 2 := by omega
  rcases hk3 with rfl | rfl | rfl <;>
    simp [ProductionConversationMemory.add_interaction, DatabaseManager.get_session,
      ProductionConversationMemory._add_message]

/-- Witness for C3 at a concrete input: a fault at the assistant-message
insert (after the user-message insert, before commit) leaves the store of
scenario1 unchanged and surfaces the error. -/
theorem C3_witness :
    (ProductionConversationMemory.add_interaction (fun n => n == 1) 120 0 "hi" "resp" none
        scenario1).2.1.store = scenario1.store ∧
    ∃ e, (ProductionConversationMemory.add_interaction (fun n => n == 1) 120 0 "hi" "resp" none
        scenario1).1 = Except.error e :=
  C3_add_interaction_atomic 1 (by decide) 120 0 "hi" "resp" none scenario1

/-- C2 amended: in every (fault-free) add_interaction execution the cache
is populated strictly before the durable commit — the message pushes and
the snapshot refresh run inside the open session — so the ordering the
spec claims (cache only after a successful commit) is inverted, and a
rollback can leave aborted data in the cache. -/
theorem C2_cache_populated_before_commit (now cid : Nat) (um ar : String)
    (md : Option Metadata) (st : MemState) :
    cachePopulationOnlyAfterCommit
        (ProductionConversationMemory.add_interaction noFault now cid um ar md st).2.2 = false := by
  simp only [ProductionConversationMemory.add_interaction, DatabaseManager.get_session,
    ProductionConversationMemory._add_message, noFault, Bool.false_eq_true, if_false,
    List.nil_append]
  cases hf : findConv cid (ProductionConversationMemory.add_message_row now cid "assistant" ar md
      (ProductionConversationMemory.add_message_row now cid "user" um none st.store).2).2 with
  | none =>
      simp [hf, cachePopulationOnlyAfterCommit, List.takeWhile_cons,
        Event.isCommit, Event.isCachePopulation]
  | some cv =>
      cases hmd : md.bind (fun m => m.articles_used) with
      | none =>
          simp [hf, hmd, cachePopulationOnlyAfterCommit, List.takeWhile_cons,
            Event.isCommit, Event.isCachePopulation,
            ProductionConversationMemory._cache_conversation]
      | some arts =>
          simp [hf, hmd, cachePopulationOnlyAfterCommit, List.takeWhile_cons,
            Event.isCommit, Event.isCachePopulation,
            ProductionConversationMemory._cache_conversation]

/-- C4: start_or_get_conversation, fault-free.  If some conversation of
the customer qualifies (status open/in_progress, updated within 4 hours),
the call returns the id of a qualifying conversation whose updated_at is
maximal among all qualifying ones; otherwise it appends exactly one new
Conversation with status 'open' and the supplied customer context, records
exactly one Message with role 'user' and the initial text, and returns the
new conversation's id. -/
theorem C4_start_or_get_conversation_correct (now : Nat) (customer initial : String)
    (ctx : Option Ctx) (st : MemState) :
    (∀ rc, recentConversation now customer st.store = some rc →
      (ProductionConversationMemory.start_or_get_conversation noFault now customer initial ctx
          st).1 = Except.ok rc.conversation_id ∧
      rc ∈ st.store.conversations ∧ qualifiesB now customer rc = true ∧
      ∀ cv ∈ st.store.conversations, qualifiesB now customer cv = true →
        cv.updated_at ≤ rc.updated_at) ∧
    (recentConversation now customer st.store = none →
      (∀ cv ∈ st.store.conversations, qualifiesB now customer cv = false) ∧
      (ProductionConversationMemory.start_or_get_conversation noFault now customer initial ctx
          st).1 = Except.ok st.store.nextConvId ∧
      (ProductionConversationMemory.start_or_get_conversation noFault now customer initial ctx
          st).2.1.store.conversations
        = st.store.conversations ++ [newConversationRow now customer ctx st.store.nextConvId] ∧
      (newConversationRow now customer ctx st.store.nextConvId).status = "open" ∧
      (newConversationRow now customer ctx st.store.nextConvId).customer_context = ctx.getD [] ∧
      ∃ m, (ProductionConversationMemory.start_or_get_conversation noFault now customer initial
              ctx st).2.1.store.messages = st.store.messages ++ [m] ∧
        m.role = "user" ∧ m.content = initial ∧ m.conversation_id = st.store.nextConvId) := by
  constructor
  · intro rc h
    rcases recentConversation_some_spec now customer st.store rc h with ⟨hmem, hq, hmax⟩
    refine ⟨?_, hmem, hq, hmax⟩
    simp [ProductionConversationMemory.start_or_get_conversation, DatabaseManager.get_session,
      ProductionConversationMemory._add_message, noFault, h]
  · intro h
    refine ⟨recentConversation_none_spec now customer st.store h, ?_, ?_, rfl, rfl, ?_⟩
    · simp [ProductionConversationMemory.start_or_get_conversation, DatabaseManager.get_session,
        ProductionConversationMemory._add_message, noFault, h, newConversationRow]
    · simp [ProductionConversationMemory.start_or_get_conversation, DatabaseManager.get_session,
        ProductionConversationMemory._add_message,
        ProductionConversationMemory._cache_conversation, noFault, h, newConversationRow,
        ProductionConversationMemory.add_message_row, initialUserMessage]
    · refine ⟨initialUserMessage now initial st.store, ?_, rfl, rfl, rfl⟩
      simp [ProductionConversationMemory.start_or_get_conversation, DatabaseManager.get_session,
        ProductionConversationMemory._add_message,
        ProductionConversationMemory._cache_conversation, noFault, h, newConversationRow,
        ProductionConversationMemory.add_message_row, initialUserMessage]

/-- Witness for C4 at a concrete input: customer c1 of scenario1 has the
qualifying conversation 0 at t = 60, and the call returns its id. -/
theorem C4_witness :
    (ProductionConversationMemory.start_or_get_conversation noFault 60 "c1" "again" none
        scenario1).1 = Except.ok scenario1Conv.conversation_id ∧
    scenario1Conv ∈ scenario1.store.conversations ∧
    qualifiesB 60 "c1" scenario1Conv = true := by
  have hr : recentConversation 60 "c1" scenario1.store = some scenario1Conv := by decide
  have h := (C4_start_or_get_conversation_correct 60 "c1" "again" none scenario1).1
      scenario1Conv hr
  exact ⟨h.1, h.2.1, h.2.2.1⟩

/-- C5: for a conversation id present in the Durable Store, after
update_conversation_status the cache entry is invalidated (not patched),
so a subsequent get_conversation_context reads the Durable Store and
returns the post-transition snapshot — its status equals the new status —
never the cached pre-transition snapshot. -/
theorem C5_status_update_then_context_consistent (now1 now2 cid : Nat) (status : String)
    (agent : Option String) (st : MemState) (cv : Conversation)
    (hfind : findConv cid st.store = some cv) :
    (ProductionConversationMemory.get_conversation_context now2 cid
        (ProductionConversationMemory.update_conversation_status now1 cid status agent
          st).2.1).1
      = some (contextSnapshot (applyStatusUpdate now1 status agent cv)) ∧
    (contextSnapshot (applyStatusUpdate now1 status agent cv)).status = status ∧
    findConv cid
        (ProductionConversationMemory.update_conversation_status now1 cid status agent
          st).2.1.store
      = some (applyStatusUpdate now1 status agent cv) := by
  have hupd : findConv cid
      (ProductionConversationMemory.update_conversation_status now1 cid status agent
        st).2.1.store = some (applyStatusUpdate now1 status agent cv) := by
    simp only [ProductionConversationMemory.update_conversation_status,
      DatabaseManager.get_session, hfind]
    exact find?_map_update cid (applyStatusUpdate now1 status agent)
      (applyStatusUpdate_conversation_id now1 status agent) st.store.conversations cv hfind
  refine ⟨?_, applyStatusUpdate_status now1 status agent cv, hupd⟩
  have hcache : (ProductionConversationMemory.update_conversation_status now1 cid status agent
      st).2.1.cache.conv.lookup cid = none := by
    simp only [ProductionConversationMemory.update_conversation_status,
      DatabaseManager.get_session, hfind]
    exact lookup_eraseA_self _ _
  simp only [ProductionConversationMemory.get_conversation_context,
    ConversationCache.get_conversation, hcache, hupd]

/-- Witness for C5 at a concrete input: escalating conversation 0 of
scenario1 and reading its context back yields the post-escalation
snapshot with status 'escalated'. -/
theorem C5_witness :
    (ProductionConversationMemory.get_conversation_context 210 0
        (ProductionConversationMemory.update_conversation_status 200 0 "escalated" (some "a9")
          scenario1).2.1).1
      = some (contextSnapshot (applyStatusUpdate 200 "escalated" (some "a9") scenario1Conv)) ∧
    (contextSnapshot (applyStatusUpdate 200 "escalated" (some "a9") scenario1Conv)).status
      = "escalated" ∧
    findConv 0
        (ProductionConversationMemory.update_conversation_status 200 0 "escalated" (some "a9")
          scenario1).2.1.store
      = some (applyStatusUpdate 200 "escalated" (some "a9") scenario1Conv) :=
  C5_status_update_then_context_consistent 200 210 0 "escalated" (some "a9") scenario1
    scenario1Conv (by decide)

/-- C7 amended: a get_conversation_context result served on a cache miss
from the Durable Store carries created_at, updated_at and
duration_minutes = (updated_at - created_at)/60 minutes; only snapshots
cached by the write path (hit on a later read) lack those fields. -/
theorem C7_context_db_path_has_duration (now cid : Nat) (st : MemState) (cv : Conversation)
    (hc : ConversationCache.get_conversation now st.cache cid = none)
    (hf : findConv cid st.store = some cv) :
    (ProductionConversationMemory.get_conversation_context now cid st).1
      = some (contextSnapshot cv) ∧
    (contextSnapshot cv).duration_minutes
      = some (((cv.updated_at : Rat) - (cv.created_at : Rat)) / 60) ∧
    (contextSnapshot cv).created_at = some cv.created_at ∧
    (contextSnapshot cv).updated_at = some cv.updated_at := by
  refine ⟨?_, rfl, rfl, rfl⟩
  simp only [ProductionConversationMemory.get_conversation_context, hc, hf]

/-- Witness for C7 at a concrete input: conversation 3 of c7St (created 0,
updated 600, empty cache) yields a snapshot whose duration is 600/60
minutes. -/
theorem C7_witness :
    (ProductionConversationMemory.get_conversation_context 5 3 c7St).1
      = some (contextSnapshot c7Conv) ∧
    (contextSnapshot c7Conv).duration_minutes
      = some (((c7Conv.updated_at : Rat) - (c7Conv.created_at : Rat)) / 60) ∧
    (contextSnapshot c7Conv).created_at = some c7Conv.created_at ∧
    (contextSnapshot c7Conv).updated_at = some c7Conv.updated_at :=
  C7_context_db_path_has_duration 5 3 c7St c7Conv (by decide) (by decide)

/-- C8: after any number of add_message calls starting from the empty
cache, get_recent_messages returns at most `limit` messages and at most
50, because add_message truncates every window to its 50 most recent
entries. -/
theorem C8_recent_messages_bounded (calls : List (Nat × Nat × MsgDict))
    (now cid limit : Nat) (l : List MsgDict)
    (h : ConversationCache.get_recent_messages now (applyAddMessages calls Cache.empty) cid
        limit = some l) :
    l.length ≤ limit ∧ l.length ≤ 50 := by
  unfold ConversationCache.get_recent_messages at h
  split at h
  case h_2 => exact absurd h (by simp)
  case h_1 w hw =>
    split at h
    · exact absurd h (by simp)
    · cases h
      refine ⟨List.length_take_le _ _, ?_⟩
      have hw50 : w.length ≤ 50 :=
        windowsBounded_applyAddMessages calls Cache.empty windowsBounded_empty cid w hw
      exact le_trans (List.length_take_le' _ _) hw50

/-- Witness for C8 at a concrete input: three pushes onto window 0 and a
read with limit 2 return the two newest messages. -/
theorem C8_witness : ([mdc, mdb] : List MsgDict).length ≤ 2 ∧
    ([mdc, mdb] : List MsgDict).length ≤ 50 :=
  C8_recent_messages_bounded c8Calls 5 0 2 [mdc, mdb] (by decide)

/-- C9 amended: for a conversation id absent from the Durable Store (and
not cached), get_conversation_context returns the typed absent value and
leaves the state unchanged, while update_conversation_status is a silent
no-op: it signals nothing — it returns ordinary success with the state
unchanged and an empty transaction committed — rather than reporting a
not-found condition. -/
theorem C9_missing_conversation_behavior (now1 now2 cid : Nat) (status : String)
    (agent : Option String) (st : MemState)
    (hf : findConv cid st.store = none)
    (hc : st.cache.conv.lookup cid = none) :
    ProductionConversationMemory.get_conversation_context now1 cid st = (none, st) ∧
    ProductionConversationMemory.update_conversation_status now2 cid status agent st
      = (Except.ok (), st, [Event.dbCommit]) := by
  constructor
  · simp only [ProductionConversationMemory.get_conversation_context,
      ConversationCache.get_conversation, hc, hf]
  · simp only [ProductionConversationMemory.update_conversation_status,
      DatabaseManager.get_session, hf, List.nil_append]

/-- Witness for C9 at a concrete input: conversation 5 does not exist in
the empty state; the read returns absent and the status update silently
commits nothing. -/
theorem C9_witness :
    ProductionConversationMemory.get_conversation_context 100 5 MemState.empty
      = (none, MemState.empty) ∧
    ProductionConversationMemory.update_conversation_status 100 5 "resolved" none MemState.empty
      = (Except.ok (), MemState.empty, [Event.dbCommit]) :=
  C9_missing_conversation_behavior 100 100 5 "resolved" none MemState.empty rfl rfl

/-- C10 amended: two consecutive get_conversation_history calls on a
conversation with no cached window do not agree; instead the second
(warm) call returns the reverse of the first (cold) call's
ascending-by-creation-time result, truncated to the 50-entry window cap,
because the cold call's backfill prepends each message to the cache
window that the warm call then reads most-recent-first. -/
theorem C10_history_warm_is_reverse_of_cold (now cid limit : Nat) (st : MemState)
    (h : st.cache.msgs.lookup cid = none) :
    (ProductionConversationMemory.get_conversation_history now cid limit
        (ProductionConversationMemory.get_conversation_history now cid limit st).2).1
      = ((ProductionConversationMemory.get_conversation_history now cid limit st).1.reverse).take
          50 := by
  have hmiss : ConversationCache.get_recent_messages now st.cache cid limit = none := by
    unfold ConversationCache.get_recent_messages
    rw [h]
  have hfirst : ProductionConversationMemory.get_conversation_history now cid limit st
      = ProductionConversationMemory.get_conversation_history_db now cid limit st := by
    unfold ProductionConversationMemory.get_conversation_history
    rw [hmiss]
  rw [hfirst]
  unfold ProductionConversationMemory.get_conversation_history_db
  dsimp only
  set hist := ((sortByCreatedAt (st.store.messages.filter
      (fun m => m.conversation_id == cid))).take limit).map msgToDict with hhist
  by_cases hemp : hist.isEmpty
  · rw [if_pos hemp]
    have hst : ({ st with cache := st.cache } : MemState) = st := rfl
    rw [hst, hfirst]
    unfold ProductionConversationMemory.get_conversation_history_db
    dsimp only
    rw [← hhist]
    have hnil : hist = [] := List.isEmpty_iff.mp hemp
    rw [hnil]
    rfl
  · rw [if_neg hemp]
    have hne : hist ≠ [] := by
      intro hx
      rw [hx] at hemp
      exact hemp rfl
    obtain ⟨hwin, hexp⟩ := foldAdd_lookup now cid hist st.cache hne
    simp only [h, Option.getD_none, List.append_nil] at hwin
    have hexpF : ConversationCache.is_expired_at now
        (hist.foldl (fun c msg => ConversationCache.add_message now cid msg c)
          st.cache).msgsExpiry cid = false := by
      unfold ConversationCache.is_expired_at
      rw [hexp]
      exact decide_eq_false (by omega)
    have hlen : hist.length ≤ limit := by
      rw [hhist, List.length_map, List.length_take]
      exact min_le_left _ _
    have hwl : (hist.reverse.take 50).length ≤ limit :=
      le_trans (le_trans (List.length_take_le' _ _) (le_of_eq (List.length_reverse _))) hlen
    have htk : (hist.reverse.take 50).take limit = hist.reverse.take 50 :=
      List.take_of_length_le hwl
    have hwne : (hist.reverse.take 50).isEmpty = false := by
      rw [List.isEmpty_eq_false]
      intro hx
      have hlz : (hist.reverse.take 50).length = 0 := by rw [hx]; rfl
      rw [List.length_take, List.length_reverse] at hlz
      have hh : hist.length ≠ 0 := fun h0 => hne (List.length_eq_zero.mp h0)
      omega
    have hget : ConversationCache.get_recent_messages now
        (hist.foldl (fun c msg => ConversationCache.add_message now cid msg c) st.cache) cid
        limit = some (hist.reverse.take 50) := by
      unfold ConversationCache.get_recent_messages
      rw [hwin, hexpF]
      simp [htk]
    unfold ProductionConversationMemory.get_conversation_history
    dsimp only
    simp only [hget, hwne, Bool.false_eq_true, if_false]

/-- Witness for C10 at a concrete input: the warm call on conversation 7
returns the reverse of the cold call's two-message result. -/
theorem C10_witness : c10Warm.1 = (c10Cold.1.reverse).take 50 :=
  C10_history_warm_is_reverse_of_cold 30 7 20 c10St rfl
